import Mathlib

/-!
Verification of the local-persistence core of the novel-reader application
(`src/services/StorageService.ts`, `src/utils/ErrorHandler.ts`,
`src/hooks/useUIState.ts`, and the navigation handlers in `App.tsx`).

Shallow embedding conventions:
* JS numbers that the code compares with `>= 0` are modelled as `Int` so that
  invalid (negative) candidates are representable.
* An untrusted candidate reaching a validator is `Option X`: `none` models the
  JS value `null` reaching a `data is X` type guard (every validator starts
  with `if (!data || typeof data !== 'object') return false`); `some x` models
  an object with every declared field present.  Enum-valued fields are plain
  `String`s (resp. `Option String` for nullable ones) so that out-of-enum
  values are representable.
* `localStorage` is modelled by `Storage`, one typed cell per fixed key of
  `STORAGE_KEYS`.  A cell is `absent` (no item under the key), or holds the
  parse result of the stored text: `Cell.text none` models stored text that
  `JSON.parse` rejects, `Cell.text (some w)` the parsed wrapper record
  `{data, version, timestamp}` written by `saveToStorage`.
* Wall-clock timestamps (`new Date().toISOString()`) are passed in as explicit
  `String` arguments; the module-load-time timestamps baked into the default
  slice values are fixed symbolic constants.
* Serialization of the slice values (`JSON.stringify` on plain records of
  strings / numbers / booleans / arrays) never throws, so `saveToStorage`
  always succeeds in the model; `setTimeout` debouncing is modelled by an
  explicit timer state with numeric fire times.
-/

/-- `ChapterProgress` record (StorageService.ts lines 19-23). -/
structure ChapterProgress where
  scrollPosition : Int
  lastVisited : String
  timeSpent : Int
  deriving DecidableEq, Repr

/-- `ReadingState` record (StorageService.ts lines 25-34).  The
`readingProgress` object keyed by chapter index is an association list with
first-key-wins lookup, matching JS object property access. -/
structure ReadingState where
  currentChapterIndex : Int
  scrollPosition : Int
  lastReadTime : String
  readingProgress : List (Int × ChapterProgress)
  totalReadingTime : Int
  sessionStartTime : String
  deriving DecidableEq, Repr

/-- `UserPreferences` record (StorageService.ts lines 10-17).  Enum fields are
strings so that out-of-enum candidates are representable. -/
structure UserPreferences where
  theme : String
  font : String
  fontSize : String
  lineHeight : String
  textAlign : String
  pageWidth : String
  deriving DecidableEq, Repr

/-- `UIState` record (StorageService.ts lines 36-43).  `lastActivePanel` is
`'toc' | 'settings' | null`, modelled as `Option String`. -/
structure UIState where
  showTOC : Bool
  showSettings : Bool
  lastActivePanel : Option String
  contentAreaWidth : Int
  navigationPreference : String
  panelAnimationDuration : Int
  deriving DecidableEq, Repr

/-- `BookmarkPosition` record (StorageService.ts lines 45-51). -/
structure BookmarkPosition where
  chapterIndex : Int
  scrollPosition : Int
  timestamp : String
  note : Option String
  id : String
  deriving DecidableEq, Repr

/-- `SessionData` record (StorageService.ts lines 53-61). -/
structure SessionData where
  sessionId : String
  lastVisitTime : String
  totalReadingTime : Int
  chaptersRead : List Int
  bookmarkPositions : List BookmarkPosition
  visitCount : Int
  averageReadingSpeed : Int
  deriving DecidableEq, Repr

/-- The wrapper record `{data, version, timestamp}` that `saveToStorage`
serializes (StorageService.ts lines 212-216). -/
structure Stored (α : Type) where
  data : α
  version : String
  timestamp : String
  deriving DecidableEq, Repr

/-- One `localStorage` slot: `absent` = no item stored under the key;
`text none` = stored text that fails to parse; `text (some w)` = stored text
parsing to the wrapper `w`. -/
inductive Cell (α : Type) where
  | absent
  | text (parsed : Option (Stored α))
  deriving DecidableEq, Repr

/-- The managed part of `localStorage`: one cell per key of `STORAGE_KEYS`
(StorageService.ts lines 73-79).  The `data` component of each cell is
`Option`-wrapped: `none` models stored JSON `null` data (falsy on load). -/
structure Storage where
  prefs : Cell (Option UserPreferences)
  reading : Cell (Option ReadingState)
  ui : Cell (Option UIState)
  session : Cell (Option SessionData)
  deriving DecidableEq, Repr

/-- Fresh browser profile: nothing stored under any managed key. -/
def emptyStorage : Storage :=
  { prefs := .absent, reading := .absent, ui := .absent, session := .absent }

/-- `StorageService.VERSION` (StorageService.ts line 206). -/
def VERSION : String := "1.0.0"

/-- Symbolic stand-in for the `new Date().toISOString()` evaluated at module
load when building the default slice objects. -/
def moduleLoadTime : String := "1970-01-01T00:00:00.000Z"

/-- Symbolic stand-in for the random session id generated at module load. -/
def moduleLoadSessionId : String := "session_0_module"

/-- `defaultPreferences` (StorageService.ts lines 82-89). -/
def defaultPreferences : UserPreferences :=
  { theme := "system", font := "system", fontSize := "medium",
    lineHeight := "normal", textAlign := "left", pageWidth := "normal" }

/-- `defaultReadingState` (StorageService.ts lines 91-98). -/
def defaultReadingState : ReadingState :=
  { currentChapterIndex := 0, scrollPosition := 0,
    lastReadTime := moduleLoadTime, readingProgress := [],
    totalReadingTime := 0, sessionStartTime := moduleLoadTime }

/-- `defaultUIState` (StorageService.ts lines 100-107). -/
def defaultUIState : UIState :=
  { showTOC := false, showSettings := false, lastActivePanel := none,
    contentAreaWidth := 800, navigationPreference := "buttons",
    panelAnimationDuration := 300 }

/-- `defaultSessionData` (StorageService.ts lines 109-117). -/
def defaultSessionData : SessionData :=
  { sessionId := moduleLoadSessionId, lastVisitTime := moduleLoadTime,
    totalReadingTime := 0, chaptersRead := [], bookmarkPositions := [],
    visitCount := 1, averageReadingSpeed := 0 }

/-- `ValidationService.validatePreferences` (StorageService.ts lines 130-148):
null check, then membership of each enum field in its allowed-value array. -/
def validatePreferences : Option UserPreferences → Bool
  | none => false
  | some p =>
      (["system", "light", "dark"].contains p.theme) &&
      (["system", "myanmarsanpya", "myanmartagu", "masterpiecestadium",
        "pyidaungsu"].contains p.font) &&
      (["small", "medium", "large"].contains p.fontSize) &&
      (["compact", "normal", "relaxed"].contains p.lineHeight) &&
      (["left", "center", "justify"].contains p.textAlign) &&
      (["narrow", "normal", "wide"].contains p.pageWidth)

/-- `ValidationService.validateReadingState` (StorageService.ts lines
150-163): null check, numeric non-negativity of the index and scroll offset.
The `typeof` checks on the remaining fields hold by construction in this
typed embedding. -/
def validateReadingState : Option ReadingState → Bool
  | none => false
  | some r => decide (0 ≤ r.currentChapterIndex) && decide (0 ≤ r.scrollPosition)

/-- `ValidationService.validateUIState` (StorageService.ts lines 165-179):
null check, `lastActivePanel ∈ {toc, settings, null}` and
`navigationPreference ∈ {buttons, keyboard, swipe}`; the boolean/number
`typeof` checks hold by construction. -/
def validateUIState : Option UIState → Bool
  | none => false
  | some u =>
      (([some "toc", some "settings", none] : List (Option String)).contains
        u.lastActivePanel) &&
      (["buttons", "keyboard", "swipe"].contains u.navigationPreference)

/-- `ValidationService.validateSessionData` (StorageService.ts lines 181-193):
null check; every remaining check is a `typeof`/`Array.isArray` test, which
holds by construction for a typed object candidate. -/
def validateSessionData : Option SessionData → Bool
  | none => false
  | some _ => true

/-- `ValidationService.sanitizeData` (StorageService.ts lines 195-201):
`data && typeof data === 'object' ? { ...defaultValue, ...data } : default`.
In this embedding an object candidate carries every declared field, so the
spread of `data` over `defaultValue` returns `data` itself. -/
def sanitizeData {α : Type} : Option α → α → α
  | none, d => d
  | some x, _ => x

/-- `StorageErrorHandler.safeJSONParse` (ErrorHandler.ts lines 323-336):
returns the parse result, or the fallback when parsing throws. -/
def safeJSONParse {α : Type} (parsed : Option α) (fallback : α) : α :=
  parsed.getD fallback

/-- `StorageService.saveToStorage` (StorageService.ts lines 210-227), effect
on the single written cell: wraps the value as `{data, version, timestamp}`
and overwrites the key.  Serialization of the slice records never fails, so
the write always succeeds in the model. -/
def saveToStorageCell {α : Type} (v : α) (now : String) : Cell α :=
  Cell.text (some { data := v, version := VERSION, timestamp := now })

/-- `StorageService.loadFromStorage` (StorageService.ts lines 229-240):
absent item returns the default; otherwise `safeJSONParse(item, {data:
default})` and then `parsed.data || defaultValue` (the `data` field, or the
default when that field is null/missing). -/
def loadFromStorage {α : Type} (cell : Cell (Option α)) (defaultValue : α) : α :=
  match cell with
  | .absent => defaultValue
  | .text parsed =>
      ((safeJSONParse parsed
          { data := some defaultValue, version := "", timestamp := "" }).data).getD
        defaultValue

/-- `StorageService.saveUserPreferences` (StorageService.ts lines 258-267):
validate-then-store; returns `false` without writing when the candidate fails
`validatePreferences` (via `StorageErrorHandler.validateStorageData`). -/
def saveUserPreferences (st : Storage) (now : String)
    (preferences : Option UserPreferences) : Bool × Storage :=
  if validatePreferences preferences then
    (true, { st with prefs := saveToStorageCell preferences now })
  else
    (false, st)

/-- `StorageService.loadUserPreferences` (StorageService.ts lines 269-275). -/
def loadUserPreferences (st : Storage) : UserPreferences :=
  let stored := loadFromStorage st.prefs defaultPreferences
  if validatePreferences (some stored) then stored
  else sanitizeData (some stored) defaultPreferences

/-- `StorageService.saveReadingState` (StorageService.ts lines 278-287). -/
def saveReadingState (st : Storage) (now : String)
    (state : Option ReadingState) : Bool × Storage :=
  if validateReadingState state then
    (true, { st with reading := saveToStorageCell state now })
  else
    (false, st)

/-- `StorageService.loadReadingState` (StorageService.ts lines 289-294). -/
def loadReadingState (st : Storage) : ReadingState :=
  let stored := loadFromStorage st.reading defaultReadingState
  if validateReadingState (some stored) then stored
  else sanitizeData (some stored) defaultReadingState

/-- `StorageService.saveUIState` (StorageService.ts lines 297-306). -/
def saveUIState (st : Storage) (now : String)
    (state : Option UIState) : Bool × Storage :=
  if validateUIState state then
    (true, { st with ui := saveToStorageCell state now })
  else
    (false, st)

/-- `StorageService.loadUIState` (StorageService.ts lines 308-313). -/
def loadUIState (st : Storage) : UIState :=
  let stored := loadFromStorage st.ui defaultUIState
  if validateUIState (some stored) then stored
  else sanitizeData (some stored) defaultUIState

/-- `StorageService.saveSessionData` (StorageService.ts lines 316-325). -/
def saveSessionData (st : Storage) (now : String)
    (data : Option SessionData) : Bool × Storage :=
  if validateSessionData data then
    (true, { st with session := saveToStorageCell data now })
  else
    (false, st)

/-- `StorageService.loadSessionData` (StorageService.ts lines 327-332). -/
def loadSessionData (st : Storage) : SessionData :=
  let stored := loadFromStorage st.session defaultSessionData
  if validateSessionData (some stored) then stored
  else sanitizeData (some stored) defaultSessionData

/-- JS object property read `readingProgress[chapterIndex]` on the
association-list model: first matching key wins, `none` when missing. -/
def progLookup : List (Int × ChapterProgress) → Int → Option ChapterProgress
  | [], _ => none
  | e :: rest, i => if e.1 = i then some e.2 else progLookup rest i

/-- JS object property write `readingProgress[chapterIndex] = x`: replaces the
entry for the key if present, otherwise appends it. -/
def progSet : List (Int × ChapterProgress) → Int → ChapterProgress →
    List (Int × ChapterProgress)
  | [], i, c => [(i, c)]
  | e :: rest, i, c => if e.1 = i then (i, c) :: rest else e :: progSet rest i c

/-- The reading-state value computed by `StorageService.updateScrollPosition`
(StorageService.ts lines 368-387) before it is handed to `debouncedSave`:
load the current persisted reading state, overwrite `scrollPosition` and
`lastReadTime`, and update the per-chapter progress entry (defaulting a
missing entry to `{scrollPosition: 0, lastVisited: now, timeSpent: 0}`).
`currentChapterIndex` is deliberately not assigned (line 371). -/
def updateScrollPositionState (st : Storage) (now : String)
    (chapterIndex scrollPosition : Int) : ReadingState :=
  let readingState := loadReadingState st
  let rs1 := { readingState with
    scrollPosition := scrollPosition, lastReadTime := now }
  let currentProgress := (progLookup readingState.readingProgress chapterIndex).getD
    { scrollPosition := 0, lastVisited := now, timeSpent := 0 }
  let newProgress := { currentProgress with
    scrollPosition := scrollPosition, lastVisited := now }
  { rs1 with readingProgress := progSet rs1.readingProgress chapterIndex newProgress }

/-- State of the reading-state slice together with its pending debounce timer
(`StorageService.debounceTimers` restricted to the `novel-reading-state` key):
`pending = some (fireTime, value)` is a scheduled `saveToStorage` of `value`
at `fireTime`. -/
structure RSys where
  store : Storage
  pending : Option (Nat × Option ReadingState)
  deriving DecidableEq, Repr

/-- `StorageService.debouncedSave` (StorageService.ts lines 243-255)
specialized to the reading-state key: clears any pending timer for the key
and schedules a write of `data` at `now + delay`. -/
def debouncedSaveReading (sys : RSys) (now : Nat) (data : Option ReadingState)
    (delay : Nat) : RSys :=
  { sys with pending := some (now + delay, data) }

/-- The timer callback (StorageService.ts lines 249-252) firing at time `t`:
if the pending timer is due, perform the `saveToStorage` (no validation on
this path) and drop the timer. -/
def firePendingReadingAt (sys : RSys) (t : Nat) (now : String) : RSys :=
  match sys.pending with
  | none => sys
  | some (fireTime, v) =>
      if fireTime ≤ t then
        { store := { sys.store with reading := saveToStorageCell v now },
          pending := none }
      else sys

/-- `StorageService.updateScrollPosition` (StorageService.ts lines 368-388) as
a step on `RSys`: compute the new reading-state snapshot from the persisted
slice **now** (at scheduling time) and hand it to `debouncedSave` with a
1000 ms delay. -/
def updateScrollPosition (sys : RSys) (now : String) (tnow : Nat)
    (chapterIndex scrollPosition : Int) : RSys :=
  debouncedSaveReading sys tnow
    (some (updateScrollPositionState sys.store now chapterIndex scrollPosition)) 1000

/-- The navigation handlers `goToPreviousChapter` / `goToNextChapter` /
`selectChapter` (App.tsx lines 217-251): load the persisted reading state,
set `currentChapterIndex` to the new index and `lastReadTime` to now, and
save immediately through `saveReadingState`. -/
def goToChapterSave (st : Storage) (now : String) (newIndex : Int) : Storage :=
  let readingState := loadReadingState st
  (saveReadingState st now
    (some { readingState with currentChapterIndex := newIndex, lastReadTime := now })).2

/-- `StorageService.addBookmark` (StorageService.ts lines 335-349).  The
random bookmark id and the timestamp are passed in explicitly (the source
generates them from `Date.now()`/`Math.random()`). -/
def addBookmark (st : Storage) (id now : String)
    (chapterIndex scrollPosition : Int) (note : Option String) :
    BookmarkPosition × Storage :=
  let bookmark : BookmarkPosition :=
    { id := id, chapterIndex := chapterIndex, scrollPosition := scrollPosition,
      timestamp := now, note := note }
  let sessionData := loadSessionData st
  let sessionData2 := { sessionData with
    bookmarkPositions := sessionData.bookmarkPositions ++ [bookmark] }
  (bookmark, (saveSessionData st now (some sessionData2)).2)

/-- `StorageService.removeBookmark` (StorageService.ts lines 351-361): filter
out the id; write back and return `true` only if the list shrank, otherwise
return `false` without writing. -/
def removeBookmark (st : Storage) (now : String) (bookmarkId : String) :
    Bool × Storage :=
  let sessionData := loadSessionData st
  let filtered := sessionData.bookmarkPositions.filter
    (fun b => decide (b.id ≠ bookmarkId))
  if filtered.length < sessionData.bookmarkPositions.length then
    (true, (saveSessionData st now
      (some { sessionData with bookmarkPositions := filtered })).2)
  else
    (false, st)

/-- `StorageService.getBookmarks` (StorageService.ts lines 363-365). -/
def getBookmarks (st : Storage) : List BookmarkPosition :=
  (loadSessionData st).bookmarkPositions

/-- Generic debounce machine over `StorageService.debounceTimers` (line 207):
at most one pending timer per key, plus a log of the storage writes performed
by fired timers (each entry: fire time, key, value written). -/
structure DebSys (V : Type) where
  timers : List (String × Nat × V)
  writes : List (Nat × String × V)
  deriving DecidableEq, Repr

/-- `StorageService.debouncedSave(key, data, delay)` (StorageService.ts lines
243-255) at time `now`: cancel the pending timer for `key` (if any) and
schedule a write of `data` at `now + delay`.  Timers for other keys are
untouched. -/
def debouncedSave {V : Type} (sys : DebSys V) (now : Nat) (key : String)
    (data : V) (delay : Nat) : DebSys V :=
  { sys with timers :=
      (key, now + delay, data) :: sys.timers.filter (fun e => decide (e.1 ≠ key)) }

/-- Event-loop progress strictly up to time `t`: every timer whose fire time
is `< t` fires (performing its `saveToStorage`, logged in `writes`) and is
removed. -/
def fireBefore {V : Type} (sys : DebSys V) (t : Nat) : DebSys V :=
  { timers := sys.timers.filter (fun e => decide (¬ e.2.1 < t)),
    writes := sys.writes ++
      (sys.timers.filter (fun e => decide (e.2.1 < t))).map
        (fun e => (e.2.1, e.1, e.2.2)) }

/-- Event-loop progress through time `t` inclusive: every timer due at or
before `t` fires. -/
def fireUpto {V : Type} (sys : DebSys V) (t : Nat) : DebSys V :=
  { timers := sys.timers.filter (fun e => decide (¬ e.2.1 ≤ t)),
    writes := sys.writes ++
      (sys.timers.filter (fun e => decide (e.2.1 ≤ t))).map
        (fun e => (e.2.1, e.1, e.2.2)) }

/-- Run a sequence of `debouncedSave` calls for one key at given times: before
each call the event loop first fires whatever became due strictly earlier. -/
def runCalls {V : Type} (key : String) (delay : Nat) (sys : DebSys V) :
    List (Nat × V) → DebSys V
  | [] => sys
  | (t, v) :: rest =>
      runCalls key delay (debouncedSave (fireBefore sys t) t key v delay) rest

/-- The timing discipline of the coalescing claim: call times strictly
increase and each call occurs strictly before the previous call's delay
elapses. -/
def wellSpaced {V : Type} (delay : Nat) : List (Nat × V) → Bool
  | [] => true
  | [_] => true
  | (t1, _) :: (t2, v2) :: rest =>
      (decide (t1 < t2) && decide (t2 < t1 + delay)) &&
        wellSpaced delay ((t2, v2) :: rest)

/-- Error classification relevant to `handleStorageOperation`
(ErrorHandler.ts lines 199-268): a `DOMException` that is quota-exceeded
(code 22 / `QuotaExceededError`), any other `DOMException`, or a non-DOM
error. -/
inductive JSErr where
  | quotaExceeded
  | domOther
  | generic
  deriving DecidableEq, Repr

/-- Loop body of `StorageErrorHandler.handleStorageOperation` (ErrorHandler.ts
lines 199-268) over the remaining attempt numbers.  Returns the outcome
(`.error` models a throw reaching the caller) together with the list of
exponential-backoff sleeps performed (`2^attempt * 100` ms before each
retry).  Error logging via `createError` and the `freeUpStorage` cleanup
(which touches only unmanaged keys) are omitted. -/
def handleStorageOperationGo {α : Type} (op : Nat → Except JSErr α)
    (fallback : Option α) (maxRetries : Nat) :
    List Nat → Option JSErr → List Nat → Except JSErr α × List Nat
  | [], lastErr, delays => (.error (lastErr.getD .generic), delays)
  | attempt :: rest, _, delays =>
      match op attempt with
      | .ok v => (.ok v, delays)
      | .error e =>
          let delays2 := if attempt < maxRetries
            then delays ++ [2 ^ attempt * 100] else delays
          match e with
          | .quotaExceeded =>
              match fallback with
              | some f =>
                  if attempt = maxRetries then (.ok f, delays)
                  else handleStorageOperationGo op fallback maxRetries rest (some e) delays2
              | none => handleStorageOperationGo op fallback maxRetries rest (some e) delays2
          | .domOther =>
              match fallback with
              | some f => (.ok f, delays)
              | none => handleStorageOperationGo op fallback maxRetries rest (some e) delays2
          | .generic =>
              handleStorageOperationGo op fallback maxRetries rest (some e) delays2

/-- `StorageErrorHandler.handleStorageOperation` (ErrorHandler.ts lines
199-268): attempts `1, …, maxRetries` (default 3), where `op n` is the
outcome of the wrapped storage operation on attempt `n`. -/
def handleStorageOperation {α : Type} (op : Nat → Except JSErr α)
    (fallback : Option α) (maxRetries : Nat := 3) : Except JSErr α × List Nat :=
  handleStorageOperationGo op fallback maxRetries (List.range' 1 maxRetries) none []

/-- The `'toc' | 'settings'` union used by `openPanel`. -/
inductive Panel where
  | toc
  | settings
  deriving DecidableEq, Repr

/-- String form of a panel, as stored in `lastActivePanel`. -/
def Panel.name : Panel → String
  | .toc => "toc"
  | .settings => "settings"

/-- `toggleTOC` state update (useUIState.ts lines 70-83): flip `showTOC`,
closing settings when opening the TOC. -/
def toggleTOC (prev : UIState) : UIState :=
  let newShowTOC := !prev.showTOC
  { prev with
    showTOC := newShowTOC,
    showSettings := if newShowTOC then false else prev.showSettings,
    lastActivePanel := if newShowTOC then some "toc" else prev.lastActivePanel }

/-- `toggleSettings` state update (useUIState.ts lines 85-98): flip
`showSettings`, closing the TOC when opening settings. -/
def toggleSettings (prev : UIState) : UIState :=
  let newShowSettings := !prev.showSettings
  { prev with
    showSettings := newShowSettings,
    showTOC := if newShowSettings then false else prev.showTOC,
    lastActivePanel := if newShowSettings then some "settings" else prev.lastActivePanel }

/-- `closeAllPanels` state update (useUIState.ts lines 100-114). -/
def closeAllPanels (prev : UIState) : UIState :=
  { prev with showTOC := false, showSettings := false, lastActivePanel := none }

/-- `openPanel` state update (useUIState.ts lines 116-135). -/
def openPanel (prev : UIState) (panel : Panel) : UIState :=
  { prev with
    showTOC := panel = Panel.toc,
    showSettings := panel = Panel.settings,
    lastActivePanel := some panel.name }

/-- Panel mutual exclusion: the TOC and settings panels are not both shown. -/
def panelsExclusive (s : UIState) : Prop :=
  ¬ (s.showTOC = true ∧ s.showSettings = true)

/-- `progSet` then `progLookup` at the written key returns the written
progress entry. -/
theorem progLookup_progSet_self (m : List (Int × ChapterProgress)) (i : Int)
    (c : ChapterProgress) : progLookup (progSet m i c) i = some c := by
  induction m with
  | nil => simp [progSet, progLookup]
  | cons e rest ih =>
      by_cases h : e.1 = i
      · simp [progSet, progLookup, h]
      · simp [progSet, progLookup, h, ih]

/-- `progSet` leaves every other key's progress entry unchanged. -/
theorem progLookup_progSet_ne (m : List (Int × ChapterProgress)) (i j : Int)
    (c : ChapterProgress) (hj : j ≠ i) :
    progLookup (progSet m i c) j = progLookup m j := by
  have hij : ¬ i = j := fun hc => hj hc.symm
  induction m with
  | nil => simp [progSet, progLookup, hij]
  | cons e rest ih =>
      by_cases h : e.1 = i
      · have hne : ¬ e.1 = j := fun hc => hij (h.symm.trans hc)
        simp [progSet, progLookup, h, hne, hij]
      · by_cases h2 : e.1 = j
        · simp [progSet, progLookup, h, h2, hj]
        · simp [progSet, progLookup, h, h2, ih]

/-- C3.  Round-trip law: for each of the four slice types, a slice value that
passes the slice's validator is saved successfully by the slice's save
operation, and the slice's load operation then returns exactly that value. -/
theorem slice_round_trip (st : Storage) (now : String)
    (p : UserPreferences) (r : ReadingState) (u : UIState) (s : SessionData)
    (hp : validatePreferences (some p) = true)
    (hr : validateReadingState (some r) = true)
    (hu : validateUIState (some u) = true)
    (hs : validateSessionData (some s) = true) :
    (saveUserPreferences st now (some p)).1 = true ∧
    loadUserPreferences (saveUserPreferences st now (some p)).2 = p ∧
    (saveReadingState st now (some r)).1 = true ∧
    loadReadingState (saveReadingState st now (some r)).2 = r ∧
    (saveUIState st now (some u)).1 = true ∧
    loadUIState (saveUIState st now (some u)).2 = u ∧
    (saveSessionData st now (some s)).1 = true ∧
    loadSessionData (saveSessionData st now (some s)).2 = s := by
  refine ⟨?_, ?_, ?_, ?_, ?_, ?_, ?_, ?_⟩ <;>
    simp [saveUserPreferences, loadUserPreferences, saveReadingState,
      loadReadingState, saveUIState, loadUIState, saveSessionData,
      loadSessionData, loadFromStorage, safeJSONParse, saveToStorageCell,
      hp, hr, hu, hs]

/-- Witness for C3 at concrete slice values (the default slice objects, which
pass their validators). -/
theorem slice_round_trip_witness :
    (saveUserPreferences emptyStorage "t" (some defaultPreferences)).1 = true ∧
    loadUserPreferences
        (saveUserPreferences emptyStorage "t" (some defaultPreferences)).2 =
      defaultPreferences ∧
    (saveReadingState emptyStorage "t" (some defaultReadingState)).1 = true ∧
    loadReadingState
        (saveReadingState emptyStorage "t" (some defaultReadingState)).2 =
      defaultReadingState ∧
    (saveUIState emptyStorage "t" (some defaultUIState)).1 = true ∧
    loadUIState (saveUIState emptyStorage "t" (some defaultUIState)).2 =
      defaultUIState ∧
    (saveSessionData emptyStorage "t" (some defaultSessionData)).1 = true ∧
    loadSessionData
        (saveSessionData emptyStorage "t" (some defaultSessionData)).2 =
      defaultSessionData :=
  slice_round_trip emptyStorage "t" defaultPreferences defaultReadingState
    defaultUIState defaultSessionData (by decide) (by decide) (by decide)
    (by decide)

/-- C4.  Invalid-save atomicity: a candidate failing a slice's validator makes
that slice's save operation return `false` and leaves the whole storage
exactly as it was — nothing is written. -/
theorem invalid_save_rejected (st : Storage) (now : String)
    (cp : Option UserPreferences) (cr : Option ReadingState)
    (cu : Option UIState) (cs : Option SessionData)
    (hp : validatePreferences cp = false)
    (hr : validateReadingState cr = false)
    (hu : validateUIState cu = false)
    (hs : validateSessionData cs = false) :
    saveUserPreferences st now cp = (false, st) ∧
    saveReadingState st now cr = (false, st) ∧
    saveUIState st now cu = (false, st) ∧
    saveSessionData st now cs = (false, st) := by
  simp [saveUserPreferences, saveReadingState, saveUIState, saveSessionData,
    hp, hr, hu, hs]

/-- Witness for C4: an out-of-enum theme, a negative chapter index, an
out-of-enum last-active panel, and a `null` session candidate are all
rejected without touching storage. -/
theorem invalid_save_rejected_witness :
    saveUserPreferences emptyStorage "t"
        (some ⟨"neon", "system", "medium", "normal", "left", "normal"⟩) =
      (false, emptyStorage) ∧
    saveReadingState emptyStorage "t" (some ⟨-1, 0, "t0", [], 0, "t0"⟩) =
      (false, emptyStorage) ∧
    saveUIState emptyStorage "t"
        (some ⟨false, false, some "weird", 800, "buttons", 300⟩) =
      (false, emptyStorage) ∧
    saveSessionData emptyStorage "t" none = (false, emptyStorage) :=
  invalid_save_rejected emptyStorage "t"
    (some ⟨"neon", "system", "medium", "normal", "left", "normal"⟩)
    (some ⟨-1, 0, "t0", [], 0, "t0"⟩)
    (some ⟨false, false, some "weird", 800, "buttons", 300⟩)
    none (by decide) (by decide) (by decide) (by decide)

/-- C6.  Sanitize gap: there is a candidate that fails
`validatePreferences` (an out-of-enum theme) for which `loadUserPreferences`
returns the sanitize-by-spread-merge result, which still carries the invalid
theme value and itself fails `validatePreferences`. -/
theorem sanitize_gap_preserves_invalid_enum :
    ∃ c : UserPreferences,
      validatePreferences (some c) = false ∧
      loadUserPreferences
          { emptyStorage with prefs := Cell.text (some ⟨some c, "1.0.0", "t"⟩) } =
        sanitizeData (some c) defaultPreferences ∧
      (loadUserPreferences
          { emptyStorage with prefs := Cell.text (some ⟨some c, "1.0.0", "t"⟩) }).theme =
        c.theme ∧
      validatePreferences (some (loadUserPreferences
          { emptyStorage with
            prefs := Cell.text (some ⟨some c, "1.0.0", "t"⟩) })) = false :=
  ⟨⟨"neon", "system", "medium", "normal", "left", "normal"⟩,
    by decide, by decide, by decide, by decide⟩

/-- C8.  Load fallback: `loadFromStorage` returns the default when no text is
stored under the key or the stored text is unparsable; otherwise it returns
the wrapped `data` field of the parsed record, or the default when that field
is empty. -/
theorem loadFromStorage_fallback {α : Type} (d : α) (w : Stored (Option α)) :
    loadFromStorage Cell.absent d = d ∧
    loadFromStorage (Cell.text none) d = d ∧
    loadFromStorage (Cell.text (some w)) d = w.data.getD d := by
  refine ⟨rfl, rfl, ?_⟩
  simp [loadFromStorage, safeJSONParse]

/-- C10.  Panel mutual exclusion: from any UI state where the TOC and
settings panels are not both shown, each panel operation (`toggleTOC`,
`toggleSettings`, `closeAllPanels`, `openPanel`) again yields a state where
they are not both shown. -/
theorem panel_mutual_exclusion (u : UIState) (p : Panel)
    (h : panelsExclusive u) :
    panelsExclusive (toggleTOC u) ∧ panelsExclusive (toggleSettings u) ∧
    panelsExclusive (closeAllPanels u) ∧ panelsExclusive (openPanel u p) := by
  unfold panelsExclusive at h ⊢
  cases hT : u.showTOC <;> cases hS : u.showSettings <;> cases p <;>
    simp_all [toggleTOC, toggleSettings, closeAllPanels, openPanel]

/-- Witness for C10 at the default UI state and the TOC panel. -/
theorem panel_mutual_exclusion_witness :
    panelsExclusive (toggleTOC defaultUIState) ∧
    panelsExclusive (toggleSettings defaultUIState) ∧
    panelsExclusive (closeAllPanels defaultUIState) ∧
    panelsExclusive (openPanel defaultUIState Panel.toc) :=
  panel_mutual_exclusion defaultUIState Panel.toc
    (by simp [panelsExclusive, defaultUIState])

/-- C1.  The claimed field-ownership property FAILS on the code: evaluation at
a concrete interleaving in which the debounced scroll save is scheduled
before the navigation save.  Starting from a stored reading state at chapter
6, `updateScrollPosition` (called at t = 0) snapshots the persisted slice at
scheduling time and registers a debounced write for t = 1000; a navigation
save then stores chapter index 5 (second conjunct); when the pending
debounced write fires it overwrites the whole slice with the stale snapshot,
reverting the stored chapter index to 6 (third conjunct) — contradicting the
claimed final value 5, because the debounced writer merges at schedule time,
not fire time, and writes a field it does not own. -/
theorem updateScrollPosition_stale_snapshot_clobbers_navigation :
    (loadReadingState
        (updateScrollPosition
            ⟨{ emptyStorage with reading :=
                (Cell.text (some ⟨some ⟨6, 0, "t0", [], 0, "t0"⟩, "1.0.0", "t0"⟩)) },
              none⟩ "t1" 0 6 120).store).currentChapterIndex = 6 ∧
    (loadReadingState
        (goToChapterSave
            (updateScrollPosition
                ⟨{ emptyStorage with reading :=
                    (Cell.text (some ⟨some ⟨6, 0, "t0", [], 0, "t0"⟩, "1.0.0", "t0"⟩)) },
                  none⟩ "t1" 0 6 120).store
            "t2" 5)).currentChapterIndex = 5 ∧
    (loadReadingState
        (firePendingReadingAt
            ⟨goToChapterSave
                (updateScrollPosition
                    ⟨{ emptyStorage with reading :=
                        (Cell.text (some ⟨some ⟨6, 0, "t0", [], 0, "t0"⟩, "1.0.0", "t0"⟩)) },
                      none⟩ "t1" 0 6 120).store
                "t2" 5,
              (updateScrollPosition
                  ⟨{ emptyStorage with reading :=
                      (Cell.text (some ⟨some ⟨6, 0, "t0", [], 0, "t0"⟩, "1.0.0", "t0"⟩)) },
                    none⟩ "t1" 0 6 120).pending⟩
            1000 "t3").store).currentChapterIndex = 6 := by
  refine ⟨by decide, by decide, by decide⟩

/-- C2 counterexample.  The claim that `updateScrollPosition` changes only the
scroll offset and the chapter-progress entry is false as stated: at a
concrete valid stored state, the top-level `lastReadTime` field also changes
(StorageService.ts line 372). -/
theorem updateScrollPosition_changes_lastReadTime :
    validateReadingState (some ⟨3, 10, "2024-01-01", [], 0, "t0"⟩) = true ∧
    (updateScrollPositionState
        { emptyStorage with reading :=
            (Cell.text (some ⟨some ⟨3, 10, "2024-01-01", [], 0, "t0"⟩, "1.0.0", "t0"⟩)) }
        "2024-01-02" 3 50).lastReadTime ≠
      (⟨3, 10, "2024-01-01", [], 0, "t0"⟩ : ReadingState).lastReadTime := by
  refine ⟨by decide, by decide⟩

/-- C2 (amended).  Frame property of scroll tracking: on a validly stored
reading state, the state computed by `updateScrollPosition(i, p)` changes
only the scroll offset, the top-level `lastReadTime` timestamp, and the
chapter-progress entry for chapter `i`; every other field — in particular
`currentChapterIndex`, `totalReadingTime` and `sessionStartTime` — and every
other chapter's progress entry is left unchanged. -/
theorem updateScrollPosition_frame (st : Storage) (now ver ts : String)
    (rs : ReadingState) (i p j : Int)
    (hcell : st.reading = Cell.text (some ⟨some rs, ver, ts⟩))
    (hvalid : validateReadingState (some rs) = true)
    (hj : j ≠ i) :
    (updateScrollPositionState st now i p).currentChapterIndex =
      rs.currentChapterIndex ∧
    (updateScrollPositionState st now i p).totalReadingTime =
      rs.totalReadingTime ∧
    (updateScrollPositionState st now i p).sessionStartTime =
      rs.sessionStartTime ∧
    (updateScrollPositionState st now i p).scrollPosition = p ∧
    (updateScrollPositionState st now i p).lastReadTime = now ∧
    progLookup (updateScrollPositionState st now i p).readingProgress j =
      progLookup rs.readingProgress j ∧
    progLookup (updateScrollPositionState st now i p).readingProgress i =
      some ⟨p, now,
        ((progLookup rs.readingProgress i).getD ⟨0, now, 0⟩).timeSpent⟩ := by
  have hload : loadReadingState st = rs := by
    simp [loadReadingState, loadFromStorage, safeJSONParse, hcell, hvalid]
  refine ⟨?_, ?_, ?_, ?_, ?_, ?_, ?_⟩ <;>
    simp [updateScrollPositionState, hload, progLookup_progSet_self,
      progLookup_progSet_ne _ _ _ _ hj]

/-- Witness for C2's frame theorem at a concrete stored state, chapter 2,
scroll offset 120, and untouched chapter 0. -/
theorem updateScrollPosition_frame_witness :
    (updateScrollPositionState
        { emptyStorage with reading :=
            (Cell.text (some ⟨some ⟨2, 5, "t0", [(0, ⟨40, "t0", 9⟩)], 7, "s0"⟩, "1.0.0", "t0"⟩)) }
        "t1" 2 120).currentChapterIndex =
      (⟨2, 5, "t0", [(0, ⟨40, "t0", 9⟩)], 7, "s0"⟩ : ReadingState).currentChapterIndex ∧
    (updateScrollPositionState
        { emptyStorage with reading :=
            (Cell.text (some ⟨some ⟨2, 5, "t0", [(0, ⟨40, "t0", 9⟩)], 7, "s0"⟩, "1.0.0", "t0"⟩)) }
        "t1" 2 120).totalReadingTime =
      (⟨2, 5, "t0", [(0, ⟨40, "t0", 9⟩)], 7, "s0"⟩ : ReadingState).totalReadingTime ∧
    (updateScrollPositionState
        { emptyStorage with reading :=
            (Cell.text (some ⟨some ⟨2, 5, "t0", [(0, ⟨40, "t0", 9⟩)], 7, "s0"⟩, "1.0.0", "t0"⟩)) }
        "t1" 2 120).sessionStartTime =
      (⟨2, 5, "t0", [(0, ⟨40, "t0", 9⟩)], 7, "s0"⟩ : ReadingState).sessionStartTime ∧
    (updateScrollPositionState
        { emptyStorage with reading :=
            (Cell.text (some ⟨some ⟨2, 5, "t0", [(0, ⟨40, "t0", 9⟩)], 7, "s0"⟩, "1.0.0", "t0"⟩)) }
        "t1" 2 120).scrollPosition = 120 ∧
    (updateScrollPositionState
        { emptyStorage with reading :=
            (Cell.text (some ⟨some ⟨2, 5, "t0", [(0, ⟨40, "t0", 9⟩)], 7, "s0"⟩, "1.0.0", "t0"⟩)) }
        "t1" 2 120).lastReadTime = "t1" ∧
    progLookup (updateScrollPositionState
        { emptyStorage with reading :=
            (Cell.text (some ⟨some ⟨2, 5, "t0", [(0, ⟨40, "t0", 9⟩)], 7, "s0"⟩, "1.0.0", "t0"⟩)) }
        "t1" 2 120).readingProgress 0 =
      progLookup (⟨2, 5, "t0", [(0, ⟨40, "t0", 9⟩)], 7, "s0"⟩ : ReadingState).readingProgress 0 ∧
    progLookup (updateScrollPositionState
        { emptyStorage with reading :=
            (Cell.text (some ⟨some ⟨2, 5, "t0", [(0, ⟨40, "t0", 9⟩)], 7, "s0"⟩, "1.0.0", "t0"⟩)) }
        "t1" 2 120).readingProgress 2 =
      some ⟨120, "t1",
        ((progLookup
          (⟨2, 5, "t0", [(0, ⟨40, "t0", 9⟩)], 7, "s0"⟩ : ReadingState).readingProgress 2).getD
          ⟨0, "t1", 0⟩).timeSpent⟩ :=
  updateScrollPosition_frame
    { emptyStorage with reading :=
        (Cell.text (some ⟨some ⟨2, 5, "t0", [(0, ⟨40, "t0", 9⟩)], 7, "s0"⟩, "1.0.0", "t0"⟩)) }
    "t1" "1.0.0" "t0" ⟨2, 5, "t0", [(0, ⟨40, "t0", 9⟩)], 7, "s0"⟩ 2 120 0
    rfl (by decide) (by decide)

/-- C7.  Quota-exceeded recovery: when the wrapped operation raises a
quota-exceeded error on every attempt and a fallback is supplied,
`handleStorageOperation` makes the full 3 attempts (so it retries twice,
i.e. at least once), sleeps the exponential-backoff delays 200 ms and 400 ms
between attempts, and finally returns the fallback value instead of
throwing. -/
theorem handleStorageOperation_quota_fallback {α : Type}
    (op : Nat → Except JSErr α) (f : α)
    (h : ∀ n, op n = .error .quotaExceeded) :
    handleStorageOperation op (some f) 3 = (.ok f, [200, 400]) := by
  simp [handleStorageOperation, List.range', handleStorageOperationGo, h]

/-- Witness for C7: an operation that always reports quota-exceeded, with
fallback value 7. -/
theorem handleStorageOperation_quota_fallback_witness :
    handleStorageOperation (fun _ => (.error .quotaExceeded : Except JSErr Int))
      (some 7) 3 = (.ok 7, [200, 400]) :=
  handleStorageOperation_quota_fallback _ 7 (fun _ => rfl)

/-- A bookmark list containing no bookmark with id `x` passes unchanged
through the `removeBookmark` filter. -/
theorem filter_keep_of_id_ne (l : List BookmarkPosition) (x : String)
    (h : ∀ b ∈ l, b.id ≠ x) :
    l.filter (fun b => decide (b.id ≠ x)) = l :=
  List.filter_eq_self.mpr (fun b hb => by simpa using h b hb)

/-- Loading the session slice immediately after a successful validated save
returns the saved value. -/
theorem loadSessionData_save (st : Storage) (now : String) (s : SessionData) :
    loadSessionData (saveSessionData st now (some s)).2 = s := rfl

/-- C9.  Bookmark add/remove: `addBookmark` makes the bookmark retrievable
(it is in the stored bookmark list, carrying the requested chapter index);
`removeBookmark` with its id returns `true` and makes it absent from the
stored list; `removeBookmark` with an id matching no stored bookmark returns
`false` and leaves storage exactly unchanged (no write occurs). -/
theorem bookmark_add_remove (st : Storage) (id now now2 : String)
    (ci sp : Int) (note : Option String) (badId : String)
    (hfresh : ∀ b ∈ getBookmarks st, b.id ≠ id)
    (hbad : ∀ b ∈ getBookmarks st, b.id ≠ badId) :
    (addBookmark st id now ci sp note).1.chapterIndex = ci ∧
    (addBookmark st id now ci sp note).1.id = id ∧
    (addBookmark st id now ci sp note).1 ∈
      getBookmarks (addBookmark st id now ci sp note).2 ∧
    (removeBookmark (addBookmark st id now ci sp note).2 now2 id).1 = true ∧
    (addBookmark st id now ci sp note).1 ∉
      getBookmarks (removeBookmark (addBookmark st id now ci sp note).2 now2 id).2 ∧
    removeBookmark st now2 badId = (false, st) := by
  have hbm : (addBookmark st id now ci sp note).1 =
      ⟨ci, sp, now, note, id⟩ := rfl
  have hload2 : loadSessionData (addBookmark st id now ci sp note).2 =
      { loadSessionData st with bookmarkPositions :=
          (loadSessionData st).bookmarkPositions ++ [⟨ci, sp, now, note, id⟩] } := rfl
  have hgb2 : getBookmarks (addBookmark st id now ci sp note).2 =
      (loadSessionData st).bookmarkPositions ++ [⟨ci, sp, now, note, id⟩] := rfl
  have hfresh' : ∀ b ∈ (loadSessionData st).bookmarkPositions, b.id ≠ id := hfresh
  have hbad' : ∀ b ∈ (loadSessionData st).bookmarkPositions, b.id ≠ badId := hbad
  have hfil : ((loadSessionData st).bookmarkPositions ++
      [(⟨ci, sp, now, note, id⟩ : BookmarkPosition)]).filter
        (fun b => decide (b.id ≠ id)) = (loadSessionData st).bookmarkPositions := by
    rw [List.filter_append, filter_keep_of_id_ne _ _ hfresh']
    simp
  have hfilc : (loadSessionData st).bookmarkPositions.filter
      (fun b => decide (b.id ≠ badId)) = (loadSessionData st).bookmarkPositions :=
    filter_keep_of_id_ne _ _ hbad'
  have hrem : removeBookmark (addBookmark st id now ci sp note).2 now2 id =
      (true, (saveSessionData (addBookmark st id now ci sp note).2 now2
        (some { loadSessionData st with bookmarkPositions :=
          (loadSessionData st).bookmarkPositions })).2) := by
    simp only [removeBookmark, hload2, hfil]
    have hlen : (loadSessionData st).bookmarkPositions.length <
        ((loadSessionData st).bookmarkPositions ++
          [(⟨ci, sp, now, note, id⟩ : BookmarkPosition)]).length := by
      simp
    simp [hlen]
  refine ⟨rfl, rfl, ?_, ?_, ?_, ?_⟩
  · rw [hgb2]
    exact List.mem_append_right _ (List.mem_singleton_self _)
  · rw [hrem]
  · rw [hbm, hrem]
    intro hmem
    have : (⟨ci, sp, now, note, id⟩ : BookmarkPosition) ∈
        (loadSessionData st).bookmarkPositions := by
      simpa [getBookmarks, loadSessionData_save] using hmem
    exact hfresh' _ this rfl
  · simp only [removeBookmark, hfilc]
    simp

/-- Witness for C9: on a fresh storage, add a bookmark with id `b1` at
chapter 4, remove it again, and attempt to remove an id that matches
nothing. -/
theorem bookmark_add_remove_witness :
    (addBookmark emptyStorage "b1" "t1" 4 77 none).1.chapterIndex = 4 ∧
    (addBookmark emptyStorage "b1" "t1" 4 77 none).1.id = "b1" ∧
    (addBookmark emptyStorage "b1" "t1" 4 77 none).1 ∈
      getBookmarks (addBookmark emptyStorage "b1" "t1" 4 77 none).2 ∧
    (removeBookmark (addBookmark emptyStorage "b1" "t1" 4 77 none).2
        "t2" "b1").1 = true ∧
    (addBookmark emptyStorage "b1" "t1" 4 77 none).1 ∉
      getBookmarks (removeBookmark
        (addBookmark emptyStorage "b1" "t1" 4 77 none).2 "t2" "b1").2 ∧
    removeBookmark emptyStorage "t2" "nope" = (false, emptyStorage) :=
  bookmark_add_remove emptyStorage "b1" "t1" "t2" 4 77 none "nope"
    (fun b hb => absurd hb (List.not_mem_nil b))
    (fun b hb => absurd hb (List.not_mem_nil b))

/-- After a well-spaced run of same-key `debouncedSave` calls starting with a
single pending timer for that key and an empty write log, the system still
has exactly one timer for the key — carrying the latest value, due one delay
after the latest call — and still no writes: every earlier scheduled value
was cancelled before it could fire. -/
theorem runCalls_locked {V : Type} (key : String) (d : Nat) :
    ∀ (rest : List (Nat × V)) (t : Nat) (v : V),
      wellSpaced d ((t, v) :: rest) = true →
      runCalls key d ⟨[(key, t + d, v)], []⟩ rest =
        ⟨[(key, (rest.getLastD (t, v)).1 + d, (rest.getLastD (t, v)).2)], []⟩ := by
  intro rest
  induction rest with
  | nil => intro t v _; simp [runCalls, List.getLastD]
  | cons hd tl ih =>
      intro t v hws
      obtain ⟨t2, v2⟩ := hd
      have hparts : (t < t2 ∧ t2 < t + d) ∧ wellSpaced d ((t2, v2) :: tl) = true := by
        simpa [wellSpaced] using hws
      have hnf : ¬ (t + d < t2) := by omega
      have hfb : fireBefore (⟨[(key, t + d, v)], []⟩ : DebSys V) t2 =
          ⟨[(key, t + d, v)], []⟩ := by
        simp [fireBefore, List.filter, hnf]
      have hds : debouncedSave (⟨[(key, t + d, v)], []⟩ : DebSys V) t2 key v2 d =
          ⟨[(key, t2 + d, v2)], []⟩ := by
        simp [debouncedSave, List.filter]
      rw [runCalls, hfb, hds, ih t2 v2 hparts.2, List.getLastD_cons]

/-- C5.  Debounced-save coalescing per key: for any well-spaced sequence of
`debouncedSave` calls for one key (each call strictly before the previous
call's delay elapses), letting the delay of the last call elapse produces
exactly one storage write, containing the last call's value, at one delay
after the last call; earlier scheduled values are discarded.  Moreover a
`debouncedSave` for one key never cancels the pending timer of a different
key. -/
theorem debouncedSave_coalescing {V : Type} (d : Nat) (key : String)
    (t : Nat) (v : V) (rest : List (Nat × V))
    (sys : DebSys V) (now2 : Nat) (v2 : V) (d2 : Nat) (k2 : String)
    (hws : wellSpaced d ((t, v) :: rest) = true)
    (hk : k2 ≠ key) :
    fireUpto (runCalls key d ⟨[], []⟩ ((t, v) :: rest))
        ((rest.getLastD (t, v)).1 + d) =
      ⟨[], [((rest.getLastD (t, v)).1 + d, key, (rest.getLastD (t, v)).2)]⟩ ∧
    (debouncedSave sys now2 key v2 d2).timers.filter
        (fun e => decide (e.1 = k2)) =
      sys.timers.filter (fun e => decide (e.1 = k2)) := by
  constructor
  · have hfb : fireBefore (⟨[], []⟩ : DebSys V) t = ⟨[], []⟩ := by
      simp [fireBefore]
    have hds : debouncedSave (⟨[], []⟩ : DebSys V) t key v d =
        ⟨[(key, t + d, v)], []⟩ := by
      simp [debouncedSave]
    rw [runCalls, hfb, hds, runCalls_locked key d rest t v hws]
    simp [fireUpto, List.filter]
  · have hkey : ¬ (key = k2) := fun hc => hk hc.symm
    simp only [debouncedSave, List.filter_cons]
    rw [List.filter_filter]
    simp [hkey]
    exact List.filter_congr (fun e _ => by
      by_cases he : e.1 = k2
      · simp [he, hk]
      · simp [he])

/-- Witness for C5: calls for the reading-state key at t = 0, 100, 200 with
delay 1000 produce exactly one write, of the last value, at t = 1200, and a
`debouncedSave` for the reading-state key leaves a pending timer for the
preferences key untouched. -/
theorem debouncedSave_coalescing_witness :
    fireUpto (runCalls "novel-reading-state" 1000 (⟨[], []⟩ : DebSys Int)
        [(0, 1), (100, 2), (200, 3)]) 1200 =
      ⟨[], [(1200, "novel-reading-state", 3)]⟩ ∧
    (debouncedSave (⟨[("novel-preferences", 500, 9)], []⟩ : DebSys Int) 0
        "novel-reading-state" 4 1000).timers.filter
        (fun e => decide (e.1 = "novel-preferences")) =
      (⟨[("novel-preferences", 500, 9)], []⟩ : DebSys Int).timers.filter
        (fun e => decide (e.1 = "novel-preferences")) :=
  debouncedSave_coalescing 1000 "novel-reading-state" 0 1 [(100, 2), (200, 3)]
    ⟨[("novel-preferences", 500, 9)], []⟩ 0 4 1000 "novel-preferences"
    (by decide) (by decide)
